import Mathlib

/-!
Verification of the FacePay biometric-gated payment engine.

This file shallowly embeds the core of the repository:
 - the embedding matcher (compareFaces, findBestMatch) and the brightness
   sub-check of the quality gate, from src/services/faceRecognition.js;
 - the payment state machine and reconciliation handlers
   (processFacePayment, confirmPayment, refundPayment,
   handlePaymentSucceeded, handlePaymentFailed, handleChargeRefunded),
   from src/services/paymentService.js.

Modelling conventions: JavaScript numbers are real numbers (embedding
arithmetic) or rationals (brightness statistics, monetary amounts);
`null`/`undefined` arguments are `Option.none`; a thrown `Error` is
`Except.error` carrying the message string; `new Date()` timestamps are a
`now : Nat` parameter; the external Stripe gateway is modelled by passing
its responses (customer id, intent id, resulting status) as parameters.
-/

namespace FacePay

open Classical

/-- Result object of `compareFaces`: `{ distance, similarity, isMatch }`. -/
structure Comparison where
  distance : ℝ
  similarity : ℝ
  isMatch : Bool

/-- One element of a user's stored embedding list, as consumed by
`findBestMatch`: an identifying field plus the `embedding` array, which in
JavaScript may be `null`/`undefined` (hence `Option`). -/
structure StoredEmbedding where
  id : Nat
  embedding : Option (List ℝ)

/-- The object `{ ...stored, similarity, distance }` built inside
`findBestMatch` when a candidate beats the best similarity so far. -/
structure BestMatch where
  stored : StoredEmbedding
  similarity : ℝ
  distance : ℝ

/-- The loop `for i: sum += Math.pow(embedding1[i] - embedding2[i], 2)`
of `compareFaces` (the two lists have equal length when it runs). -/
def sqSum (e1 e2 : List ℝ) : ℝ :=
  ((e1.zip e2).map (fun p => (p.1 - p.2) ^ 2)).sum

/-- `compareFaces(embedding1, embedding2)` from faceRecognition.js.
Throws when an embedding is missing (JS `!embedding`; an empty array is
truthy and passes this check) or when the lengths differ; otherwise
computes Euclidean distance, `similarity = max(0, 1 - distance)` and
`isMatch = similarity >= threshold`.  The surrounding try/catch prefixes
messages with "Face comparison failed: ". -/
noncomputable def compareFaces (threshold : ℝ) (embedding1 embedding2 : Option (List ℝ)) :
    Except String Comparison :=
  match embedding1, embedding2 with
  | none, _ => .error "Face comparison failed: Both embeddings are required for comparison"
  | _, none => .error "Face comparison failed: Both embeddings are required for comparison"
  | some e1, some e2 =>
    if e1.length ≠ e2.length then
      .error "Face comparison failed: Embeddings must have the same length"
    else
      let distance := Real.sqrt (sqSum e1 e2)
      let similarity := max 0 (1 - distance)
      .ok { distance := distance
            similarity := similarity
            isMatch := decide (threshold ≤ similarity) }

/-- The `for (const stored of storedEmbeddings)` loop of `findBestMatch`,
carrying the accumulator `bestMatch` (initially `null`) and
`bestSimilarity` (initially `0`); a throw inside `compareFaces` aborts the
whole loop. -/
noncomputable def scanCandidates (threshold : ℝ) (target : Option (List ℝ)) :
    List StoredEmbedding → Option BestMatch → ℝ → Except String (Option BestMatch × ℝ)
  | [], best, bestSim => .ok (best, bestSim)
  | s :: rest, best, bestSim =>
    match compareFaces threshold target s.embedding with
    | .error e => .error e
    | .ok comparison =>
      if bestSim < comparison.similarity then
        scanCandidates threshold target rest
          (some { stored := s
                  similarity := comparison.similarity
                  distance := comparison.distance })
          comparison.similarity
      else
        scanCandidates threshold target rest best bestSim

/-- `findBestMatch(targetEmbedding, storedEmbeddings)` from
faceRecognition.js: run the scan, then
`return bestMatch && bestMatch.similarity >= this.threshold ? bestMatch : null`.
The surrounding try/catch prefixes errors with "Best match search failed: ". -/
noncomputable def findBestMatch (threshold : ℝ) (target : Option (List ℝ))
    (stored : List StoredEmbedding) : Except String (Option BestMatch) :=
  match scanCandidates threshold target stored none 0 with
  | .error e => .error ("Best match search failed: " ++ e)
  | .ok (best, _) =>
    match best with
    | some m => if threshold ≤ m.similarity then .ok (some m) else .ok none
    | none => .ok none

/-- The similarity `compareFaces` reports for one stored candidate against
the target; used to state properties of the scan order. -/
noncomputable def candSim (threshold : ℝ) (target : Option (List ℝ))
    (c : StoredEmbedding) : Except String ℝ :=
  (compareFaces threshold target c.embedding).map Comparison.similarity

/-- `this.threshold = parseFloat(process.env.FACE_RECOGNITION_THRESHOLD) || 0.6`:
the default face recognition threshold when the environment variable is
unset. -/
noncomputable def defaultThreshold : ℝ := 0.6

/-- `averageBrightness` of `checkBrightness`: the raw RGB data (one rational
per channel, 0 to 255) averaged per pixel and then over the pixels:
`totalBrightness += (data[i] + data[i+1] + data[i+2]) / 3` and
`averageBrightness = totalBrightness / (data.length / 3)`. -/
def averageBrightness (pixels : List (ℚ × ℚ × ℚ)) : ℚ :=
  ((pixels.map (fun p => (p.1 + p.2.1 + p.2.2) / 3)).sum) / pixels.length

/-- The verdict of the brightness sub-check of `validateFaceQuality`:
`isGood = averageBrightness > 50 && averageBrightness < 200`. -/
def checkBrightnessIsGood (pixels : List (ℚ × ℚ × ℚ)) : Bool :=
  decide (50 < averageBrightness pixels) && decide (averageBrightness pixels < 200)

/-- `Math.round` on a rational argument: round half toward positive
infinity, as JavaScript does. -/
def jsRound (q : ℚ) : ℤ := ⌊q + 1 / 2⌋

/-- The `faceData` evidence object handed to `processFacePayment`; the
service reads `confidence`, `embeddingDistance`, `threshold` and
`imageUrl` from it (it never re-checks a match flag). -/
structure FaceData where
  confidence : ℚ
  embeddingDistance : ℚ
  threshold : ℚ
  imageUrl : Option String

/-- The slice of the User document that paymentService.js touches. -/
structure User where
  id : String
  email : String
  isActive : Bool
  stripeCustomerId : Option String

/-- The Payment record as built and mutated by paymentService.js.  The
status is a string because `confirmPayment` assigns
`payment.status = paymentIntent.status` verbatim. -/
structure Payment where
  amount : ℤ
  currency : String
  userId : String
  stripePaymentIntentId : String
  stripeCustomerId : String
  confidence : ℚ
  embeddingDistance : ℚ
  thresholdUsed : ℚ
  description : String
  status : String
  failureReason : Option String
  failureCode : Option String
  processedAt : Option Nat
  refundedAt : Option Nat
deriving DecidableEq

/-- Membership in the spec's status set {pending, succeeded, failed,
refunded}. -/
def coreStatus (s : String) : Bool :=
  (["pending", "succeeded", "failed", "refunded"] : List String).contains s

/-- `processFacePayment(userId, amount, currency, description, faceData)`:
validate the user, reuse or store the gateway customer id, create the
gateway intent (its returned id is the `intentId` parameter), then build
and save exactly one pending Payment with `amount: Math.round(amount*100)`
and `currency.toLowerCase()`.  Returns the record together with the
possibly-updated user. -/
def processFacePayment (user : Option User) (amount : ℚ) (currency : String)
    (description : String) (faceData : FaceData) (newCustomerId : String)
    (intentId : String) : Except String (Payment × User) :=
  match user with
  | none => .error "Payment processing failed: User not found or inactive"
  | some u =>
    if u.isActive = false then
      .error "Payment processing failed: User not found or inactive"
    else
      let customerId := u.stripeCustomerId.getD newCustomerId
      let payment : Payment :=
        { amount := jsRound (amount * 100)
          currency := currency.toLower
          userId := u.id
          stripePaymentIntentId := intentId
          stripeCustomerId := customerId
          confidence := faceData.confidence
          embeddingDistance := faceData.embeddingDistance
          thresholdUsed := faceData.threshold
          description := description
          status := "pending"
          failureReason := none
          failureCode := none
          processedAt := none
          refundedAt := none }
      .ok (payment, { u with stripeCustomerId := some customerId })

/-- `confirmPayment(paymentIntentId, paymentMethodId)`: look up the record
(`none` models a failed lookup), confirm the intent at the gateway (the
gateway's resulting status is the `gatewayStatus` parameter), then assign
`payment.status = paymentIntent.status` and stamp `processedAt` when the
gateway says succeeded, or failure fields when it says failed. -/
def confirmPayment (payment : Option Payment) (gatewayStatus : String)
    (gatewayErrorMessage gatewayErrorCode : Option String) (now : Nat) :
    Except String Payment :=
  match payment with
  | none => .error "Payment confirmation failed: Payment not found"
  | some p =>
    let p1 := { p with status := gatewayStatus }
    if gatewayStatus = "succeeded" then
      .ok { p1 with processedAt := some now }
    else if gatewayStatus = "failed" then
      .ok { p1 with failureReason := some (gatewayErrorMessage.getD "Payment failed")
                    failureCode := some (gatewayErrorCode.getD "unknown") }
    else
      .ok p1

/-- `refundPayment(paymentId, reason)`: look up the record, reject unless
its status is succeeded, else create the gateway refund and set
`status = refunded`, `failureReason = reason`, `refundedAt = now`. -/
def refundPayment (payment : Option Payment) (reason : String) (now : Nat) :
    Except String Payment :=
  match payment with
  | none => .error "Refund failed: Payment not found"
  | some p =>
    if p.status ≠ "succeeded" then
      .error "Refund failed: Only successful payments can be refunded"
    else
      .ok { p with status := "refunded"
                   failureReason := some reason
                   refundedAt := some now }

/-- Webhook handler for payment_intent.succeeded: if the looked-up record
exists, set `status = succeeded` and `processedAt = new Date()` and save;
returns the saved record (or `none` when no record matched, a silent
no-op). -/
def handlePaymentSucceeded (payment : Option Payment) (now : Nat) : Option Payment :=
  payment.map (fun p => { p with status := "succeeded", processedAt := some now })

/-- Webhook handler for payment_intent.payment_failed: set
`status = failed` and the failure fields from the gateway payload. -/
def handlePaymentFailed (payment : Option Payment)
    (gatewayErrorMessage gatewayErrorCode : Option String) : Option Payment :=
  payment.map (fun p =>
    { p with status := "failed"
             failureReason := some (gatewayErrorMessage.getD "Payment failed")
             failureCode := some (gatewayErrorCode.getD "unknown") })

/-- Webhook handler for charge.refunded: set `status = refunded` and
`refundedAt = new Date()` unconditionally on the looked-up record. -/
def handleChargeRefunded (payment : Option Payment) (now : Nat) : Option Payment :=
  payment.map (fun p => { p with status := "refunded", refundedAt := some now })

/-- A concrete pending Payment record used for concrete evaluations. -/
def samplePending : Payment :=
  { amount := 2550
    currency := "usd"
    userId := "user1"
    stripePaymentIntentId := "pi_1"
    stripeCustomerId := "cus_1"
    confidence := 9 / 10
    embeddingDistance := 1 / 5
    thresholdUsed := 3 / 5
    description := "coffee"
    status := "pending"
    failureReason := none
    failureCode := none
    processedAt := none
    refundedAt := none }

/-- A concrete Payment record already in status succeeded, processed at
time 0. -/
def sampleSucceeded : Payment :=
  { samplePending with status := "succeeded", processedAt := some 0 }

/-- A concrete active user with no stored gateway customer id. -/
def sampleUser : User :=
  { id := "user1"
    email := "a@b.c"
    isActive := true
    stripeCustomerId := none }

/-- Concrete match evidence for concrete evaluations. -/
def sampleFaceData : FaceData :=
  { confidence := 9 / 10
    embeddingDistance := 1 / 5
    threshold := 3 / 5
    imageUrl := none }

/-- A stored candidate identical to the probe [0] (similarity 1). -/
def candIdent : StoredEmbedding := { id := 1, embedding := some [0] }

/-- A second stored candidate also identical to the probe [0]: a tie. -/
def candTie : StoredEmbedding := { id := 2, embedding := some [0] }

/-- A malformed stored candidate whose embedding has length 2. -/
def candBad : StoredEmbedding := { id := 3, embedding := some [1, 2] }

/-- C1: the claim fails on the code.  A record already in status succeeded
(first application stamped `processedAt = 0`) receives the same
payment-succeeded event again at time 1: the handler re-stamps
`processedAt` to 1, so the timestamp is not unchanged. -/
theorem C1_counterexample :
    handlePaymentSucceeded (some samplePending) 0 = some sampleSucceeded ∧
    handlePaymentSucceeded (some sampleSucceeded) 1 =
      some { sampleSucceeded with processedAt := some 1 } ∧
    (handlePaymentSucceeded (some sampleSucceeded) 1).map Payment.processedAt ≠
      some sampleSucceeded.processedAt :=
  ⟨rfl, rfl, by decide⟩

/-- C1 (amended): applying a payment-succeeded event to a record already
in status succeeded leaves the status succeeded and does not throw, but
overwrites `processedAt` with the time of this (second) application. -/
theorem C1_amended (p : Payment) (t : Nat) (_h : p.status = "succeeded") :
    ∃ q, handlePaymentSucceeded (some p) t = some q ∧
      q.status = "succeeded" ∧ q.processedAt = some t :=
  ⟨_, rfl, rfl, rfl⟩

/-- Witness for C1 (amended) at the concrete already-succeeded record. -/
theorem C1_witness :
    sampleSucceeded.status = "succeeded" ∧
    ∃ q, handlePaymentSucceeded (some sampleSucceeded) 1 = some q ∧
      q.status = "succeeded" ∧ q.processedAt = some 1 :=
  ⟨rfl, C1_amended sampleSucceeded 1 rfl⟩

/-- C2: the claim fails on the code.  The charge-refunded reconciliation
handler sets status refunded unconditionally, so a pending record jumps
straight to refunded. -/
theorem C2_counterexample :
    samplePending.status = "pending" ∧
    (handleChargeRefunded (some samplePending) 5).map Payment.status = some "refunded" :=
  ⟨rfl, rfl⟩

/-- C2 (amended): the explicit refund call rejects any record whose status
is not succeeded with an invalid-state error (leaving the record
unmutated), but the charge-refunded reconciliation handler sets status
refunded regardless of the prior status. -/
theorem C2_amended (p : Payment) (reason : String) (t : Nat)
    (h : p.status ≠ "succeeded") :
    refundPayment (some p) reason t =
      .error "Refund failed: Only successful payments can be refunded" ∧
    (handleChargeRefunded (some p) t).map Payment.status = some "refunded" := by
  constructor
  · simp only [refundPayment]
    rw [if_pos h]
  · rfl

/-- Witness for C2 (amended) at the concrete pending record. -/
theorem C2_witness :
    samplePending.status ≠ "succeeded" ∧
    (refundPayment (some samplePending) "requested" 3 =
      .error "Refund failed: Only successful payments can be refunded" ∧
    (handleChargeRefunded (some samplePending) 3).map Payment.status = some "refunded") :=
  ⟨by decide, C2_amended samplePending "requested" 3 (by decide)⟩

/-- C3: the claim fails on the code.  `confirmPayment` assigns the
gateway's reported status verbatim, so a gateway status of "processing"
puts the record outside {pending, succeeded, failed, refunded}. -/
theorem C3_counterexample :
    (confirmPayment (some samplePending) "processing" none none 7).map Payment.status =
      .ok "processing" ∧
    coreStatus "processing" = false :=
  ⟨by simp only [confirmPayment]; rfl, by decide⟩

/-- C3 (amended): authorization, refund and the three reconciliation
handlers only ever store statuses inside {pending, succeeded, failed,
refunded} (or fail without storing a record), but `confirmPayment` copies
the gateway's resulting status verbatim, so its record stays inside the
set only when the gateway's status does. -/
theorem C3_amended (p : Payment) (u : User) (amt : ℚ)
    (curr descr cid iid gs reason : String) (fd : FaceData)
    (em ec : Option String) (t : Nat) :
    ((processFacePayment (some u) amt curr descr fd cid iid).map
        (fun r => coreStatus r.1.status) = .ok true ∨
      ∃ e, processFacePayment (some u) amt curr descr fd cid iid = .error e) ∧
    ((refundPayment (some p) reason t).map (fun q => coreStatus q.status) = .ok true ∨
      ∃ e, refundPayment (some p) reason t = .error e) ∧
    (handlePaymentSucceeded (some p) t).map (fun q => coreStatus q.status) = some true ∧
    (handlePaymentFailed (some p) em ec).map (fun q => coreStatus q.status) = some true ∧
    (handleChargeRefunded (some p) t).map (fun q => coreStatus q.status) = some true ∧
    (confirmPayment (some p) gs em ec t).map Payment.status = .ok gs := by
  refine ⟨?_, ?_, rfl, rfl, rfl, ?_⟩
  · by_cases hA : u.isActive = false
    · exact Or.inr ⟨_, by simp only [processFacePayment]; rw [if_pos hA]⟩
    · left
      simp only [processFacePayment]
      rw [if_neg hA]
      rfl
  · by_cases hs : p.status ≠ "succeeded"
    · exact Or.inr ⟨_, by simp only [refundPayment]; rw [if_pos hs]⟩
    · left
      simp only [refundPayment]
      rw [if_neg hs]
      rfl
  · by_cases h1 : gs = "succeeded"
    · simp only [confirmPayment]
      rw [if_pos h1]
      subst h1
      rfl
    · by_cases h2 : gs = "failed"
      · simp only [confirmPayment]
        rw [if_neg h1, if_pos h2]
        subst h2
        rfl
      · simp only [confirmPayment]
        rw [if_neg h1, if_neg h2]
        rfl

/-- C6: authorizing 25.50 usd for an active user with accepted match
evidence creates exactly one pending payment record holding 2550 minor
units, bound to the gateway's returned intent id. -/
theorem C6 (u : User) (h : u.isActive = true) (descr cid iid : String)
    (fd : FaceData) :
    ∃ q u2, processFacePayment (some u) (51 / 2) "usd" descr fd cid iid = .ok (q, u2) ∧
      q.amount = 2550 ∧ q.status = "pending" ∧ q.stripePaymentIntentId = iid := by
  have heq : processFacePayment (some u) (51 / 2) "usd" descr fd cid iid =
      .ok ({ amount := jsRound (51 / 2 * 100)
             currency := String.toLower "usd"
             userId := u.id
             stripePaymentIntentId := iid
             stripeCustomerId := u.stripeCustomerId.getD cid
             confidence := fd.confidence
             embeddingDistance := fd.embeddingDistance
             thresholdUsed := fd.threshold
             description := descr
             status := "pending"
             failureReason := none
             failureCode := none
             processedAt := none
             refundedAt := none },
           { u with stripeCustomerId := some (u.stripeCustomerId.getD cid) }) := by
    simp only [processFacePayment]
    rw [if_neg (by rw [h]; decide)]
  refine ⟨_, _, heq, ?_, rfl, rfl⟩
  show jsRound (51 / 2 * 100) = 2550
  norm_num [jsRound]

/-- A missing first embedding is rejected before any arithmetic. -/
theorem compareFaces_none_left (θ : ℝ) (b : Option (List ℝ)) :
    compareFaces θ none b =
      .error "Face comparison failed: Both embeddings are required for comparison" := by
  cases b <;> rfl

/-- A missing second embedding is rejected before any arithmetic. -/
theorem compareFaces_none_right (θ : ℝ) (e1 : List ℝ) :
    compareFaces θ (some e1) none =
      .error "Face comparison failed: Both embeddings are required for comparison" := rfl

/-- Unequal dimensionality is rejected. -/
theorem compareFaces_mismatch (θ : ℝ) (e1 e2 : List ℝ) (h : e1.length ≠ e2.length) :
    compareFaces θ (some e1) (some e2) =
      .error "Face comparison failed: Embeddings must have the same length" := by
  simp only [compareFaces]
  rw [if_pos h]

/-- On equal-length vectors `compareFaces` returns the computed verdict. -/
theorem compareFaces_ok_len (θ : ℝ) (e1 e2 : List ℝ) (h : e1.length = e2.length) :
    compareFaces θ (some e1) (some e2) =
      .ok { distance := Real.sqrt (sqSum e1 e2)
            similarity := max 0 (1 - Real.sqrt (sqSum e1 e2))
            isMatch := decide (θ ≤ max 0 (1 - Real.sqrt (sqSum e1 e2))) } := by
  simp only [compareFaces]
  rw [if_neg (by simp [h])]

/-- Specialization to one-dimensional vectors: the distance is `|x - y|`. -/
theorem compareFaces_single (θ x y : ℝ) :
    compareFaces θ (some [x]) (some [y]) =
      .ok { distance := |x - y|
            similarity := max 0 (1 - |x - y|)
            isMatch := decide (θ ≤ max 0 (1 - |x - y|)) } := by
  rw [compareFaces_ok_len θ [x] [y] rfl]
  rw [show sqSum [x] [y] = (x - y) ^ 2 from by simp [sqSum], Real.sqrt_sq_eq_abs]

/-- Whenever `compareFaces` returns a verdict, its boolean is exactly the
inclusive comparison of the returned similarity against the threshold. -/
theorem compareFaces_isMatch (θ : ℝ) (a b : Option (List ℝ)) (r : Comparison)
    (h : compareFaces θ a b = .ok r) : r.isMatch = true ↔ θ ≤ r.similarity := by
  cases a with
  | none => rw [compareFaces_none_left] at h; exact absurd h (by simp)
  | some e1 =>
    cases b with
    | none => rw [compareFaces_none_right] at h; exact absurd h (by simp)
    | some e2 =>
      by_cases hl : e1.length = e2.length
      · rw [compareFaces_ok_len θ e1 e2 hl] at h
        have hr : r =
            { distance := Real.sqrt (sqSum e1 e2)
              similarity := max 0 (1 - Real.sqrt (sqSum e1 e2))
              isMatch := decide (θ ≤ max 0 (1 - Real.sqrt (sqSum e1 e2))) } := by
          simpa using h.symm
        subst hr
        simp [decide_eq_true_eq]
      · rw [compareFaces_mismatch θ e1 e2 hl] at h
        exact absurd h (by simp)

/-- Concrete comparison: identical one-dimensional vectors. -/
theorem cmp_ident : compareFaces defaultThreshold (some [0]) (some [0]) =
    .ok { distance := 0, similarity := 1, isMatch := true } := by
  rw [compareFaces_single]
  rw [show |(0:ℝ) - 0| = 0 by simp]
  rw [show max (0:ℝ) (1 - 0) = 1 from by rw [sub_zero]; exact max_eq_right (by norm_num)]
  rw [decide_eq_true (show defaultThreshold ≤ (1:ℝ) from by norm_num [defaultThreshold])]

/-- Concrete comparison with similarity exactly 3/5 = 0.6 (the boundary). -/
theorem cmp_boundary : compareFaces defaultThreshold (some [1]) (some [3 / 5]) =
    .ok { distance := 2 / 5, similarity := 3 / 5, isMatch := true } := by
  rw [compareFaces_single]
  rw [show |(1:ℝ) - 3 / 5| = 2 / 5 from by
    rw [show (1:ℝ) - 3 / 5 = 2 / 5 by norm_num]; exact abs_of_nonneg (by norm_num)]
  rw [show max (0:ℝ) (1 - 2 / 5) = 3 / 5 from by
    rw [show (1:ℝ) - 2 / 5 = 3 / 5 by norm_num]; exact max_eq_right (by norm_num)]
  rw [decide_eq_true (show defaultThreshold ≤ (3 / 5:ℝ) from by norm_num [defaultThreshold])]

/-- Concrete comparison with similarity 1/2, strictly below 0.6. -/
theorem cmp_below : compareFaces defaultThreshold (some [1]) (some [1 / 2]) =
    .ok { distance := 1 / 2, similarity := 1 / 2, isMatch := false } := by
  rw [compareFaces_single]
  rw [show |(1:ℝ) - 1 / 2| = 1 / 2 from by
    rw [show (1:ℝ) - 1 / 2 = 1 / 2 by norm_num]; exact abs_of_nonneg (by norm_num)]
  rw [show max (0:ℝ) (1 - 1 / 2) = 1 / 2 from by
    rw [show (1:ℝ) - 1 / 2 = 1 / 2 by norm_num]; exact max_eq_right (by norm_num)]
  rw [decide_eq_false (show ¬defaultThreshold ≤ (1 / 2:ℝ) from by norm_num [defaultThreshold])]

/-- One step of the scan when the comparison succeeds. -/
theorem scanCandidates_cons_ok (θ : ℝ) (target : Option (List ℝ)) (s : StoredEmbedding)
    (rest : List StoredEmbedding) (best : Option BestMatch) (bestSim : ℝ)
    (cr : Comparison) (hc : compareFaces θ target s.embedding = .ok cr) :
    scanCandidates θ target (s :: rest) best bestSim =
      if bestSim < cr.similarity then
        scanCandidates θ target rest
          (some { stored := s, similarity := cr.similarity, distance := cr.distance })
          cr.similarity
      else
        scanCandidates θ target rest best bestSim := by
  simp only [scanCandidates, hc]

/-- One step of the scan when the comparison throws: the loop aborts. -/
theorem scanCandidates_cons_error (θ : ℝ) (target : Option (List ℝ)) (s : StoredEmbedding)
    (rest : List StoredEmbedding) (best : Option BestMatch) (bestSim : ℝ)
    (e : String) (hc : compareFaces θ target s.embedding = .error e) :
    scanCandidates θ target (s :: rest) best bestSim = .error e := by
  simp only [scanCandidates, hc]

/-- `findBestMatch` after a scan that retained a best match applies the
final threshold guard to it. -/
theorem findBestMatch_eq_of_scan_some (θ : ℝ) (target : Option (List ℝ))
    (stored : List StoredEmbedding) (m2 : BestMatch) (bs : ℝ)
    (h : scanCandidates θ target stored none 0 = .ok (some m2, bs)) :
    findBestMatch θ target stored =
      if θ ≤ m2.similarity then .ok (some m2) else .ok none := by
  simp only [findBestMatch, h]

/-- `findBestMatch` after a scan that retained nothing returns null. -/
theorem findBestMatch_eq_of_scan_none (θ : ℝ) (target : Option (List ℝ))
    (stored : List StoredEmbedding) (bs : ℝ)
    (h : scanCandidates θ target stored none 0 = .ok (none, bs)) :
    findBestMatch θ target stored = .ok none := by
  simp only [findBestMatch, h]

/-- `findBestMatch` wraps a scan error. -/
theorem findBestMatch_eq_of_scan_error (θ : ℝ) (target : Option (List ℝ))
    (stored : List StoredEmbedding) (e : String)
    (h : scanCandidates θ target stored none 0 = .error e) :
    findBestMatch θ target stored = .error ("Best match search failed: " ++ e) := by
  simp only [findBestMatch, h]

/-- Witness for C6 at the concrete active user. -/
theorem C6_witness :
    sampleUser.isActive = true ∧
    ∃ q u2, processFacePayment (some sampleUser) (51 / 2) "usd" "coffee"
        sampleFaceData "cus_9" "pi_9" = .ok (q, u2) ∧
      q.amount = 2550 ∧ q.status = "pending" ∧ q.stripePaymentIntentId = "pi_9" :=
  ⟨rfl, C6 sampleUser rfl "coffee" "cus_9" "pi_9" sampleFaceData⟩

/-- Characterization of a completed scan: either no candidate beat the
incoming accumulator (every reported similarity is at most the incoming
best similarity), or the result is the first candidate of a decomposition
`pre ++ c :: post` whose similarity strictly exceeds the incoming best and
every earlier candidate, and is at least every later candidate's. -/
theorem scanCandidates_ok_spec (θ : ℝ) (target : Option (List ℝ))
    (cands : List StoredEmbedding) :
    ∀ (b0 : Option BestMatch) (s0 : ℝ) (res : Option BestMatch × ℝ),
      scanCandidates θ target cands b0 s0 = .ok res →
      (res = (b0, s0) ∧ ∀ c ∈ cands, ∀ s, candSim θ target c = .ok s → s ≤ s0) ∨
      (∃ pre c post sim dist,
        cands = pre ++ c :: post ∧
        candSim θ target c = .ok sim ∧
        res = (some { stored := c, similarity := sim, distance := dist }, sim) ∧
        s0 < sim ∧
        (∀ c2 ∈ pre, ∀ s, candSim θ target c2 = .ok s → s < sim) ∧
        (∀ c2 ∈ post, ∀ s, candSim θ target c2 = .ok s → s ≤ sim)) := by
  induction cands with
  | nil =>
    intro b0 s0 res h
    left
    have h2 : (Except.ok (b0, s0) : Except String (Option BestMatch × ℝ)) = .ok res := h
    constructor
    · exact (Except.ok.inj h2).symm
    · intro c hc
      exact absurd hc (by simp)
  | cons c rest ih =>
    intro b0 s0 res h
    cases hcmp : compareFaces θ target c.embedding with
    | error e =>
      rw [scanCandidates_cons_error θ target c rest b0 s0 e hcmp] at h
      exact absurd h (by simp)
    | ok comparison =>
      have hcs : candSim θ target c = .ok comparison.similarity := by
        simp only [candSim, hcmp]
        rfl
      rw [scanCandidates_cons_ok θ target c rest b0 s0 comparison hcmp] at h
      by_cases hlt : s0 < comparison.similarity
      · rw [if_pos hlt] at h
        rcases ih _ _ _ h with ⟨hres, hall⟩ |
          ⟨pre, c2, post, sim, dist, hsplit, hcs2, hres, hgt, hpre, hpost⟩
        · right
          exact ⟨[], c, rest, comparison.similarity, comparison.distance, rfl, hcs,
            hres, hlt, by intro c3 hc3; exact absurd hc3 (by simp),
            fun c3 hc3 s hs => hall c3 hc3 s hs⟩
        · right
          refine ⟨c :: pre, c2, post, sim, dist, by simp [hsplit], hcs2, hres,
            lt_trans hlt hgt, ?_, hpost⟩
          intro c3 hc3 s hs
          rcases List.mem_cons.mp hc3 with rfl | hmem
          · have hseq : s = comparison.similarity := by
              rw [hcs] at hs
              simpa using hs.symm
            rw [hseq]
            exact hgt
          · exact hpre c3 hmem s hs
      · rw [if_neg hlt] at h
        rcases ih _ _ _ h with ⟨hres, hall⟩ |
          ⟨pre, c2, post, sim, dist, hsplit, hcs2, hres, hgt, hpre, hpost⟩
        · left
          refine ⟨hres, ?_⟩
          intro c3 hc3 s hs
          rcases List.mem_cons.mp hc3 with rfl | hmem
          · have hseq : s = comparison.similarity := by
              rw [hcs] at hs
              simpa using hs.symm
            rw [hseq]
            exact not_lt.mp hlt
          · exact hall c3 hmem s hs
        · right
          refine ⟨c :: pre, c2, post, sim, dist, by simp [hsplit], hcs2, hres, hgt, ?_, hpost⟩
          intro c3 hc3 s hs
          rcases List.mem_cons.mp hc3 with rfl | hmem
          · have hseq : s = comparison.similarity := by
              rw [hcs] at hs
              simpa using hs.symm
            rw [hseq]
            exact lt_of_le_of_lt (not_lt.mp hlt) hgt
          · exact hpre c3 hmem s hs

/-- A successful non-null `findBestMatch` came from a successful scan whose
retained best is the returned match, and it passed the threshold guard. -/
theorem findBestMatch_ok_some (θ : ℝ) (target : Option (List ℝ))
    (cands : List StoredEmbedding) (m : BestMatch)
    (h : findBestMatch θ target cands = .ok (some m)) :
    ∃ bs, scanCandidates θ target cands none 0 = .ok (some m, bs) ∧ θ ≤ m.similarity := by
  cases hscan : scanCandidates θ target cands none 0 with
  | error e =>
    rw [findBestMatch_eq_of_scan_error θ target cands e hscan] at h
    exact absurd h (by simp)
  | ok pr =>
    obtain ⟨best, bs⟩ := pr
    cases best with
    | none =>
      rw [findBestMatch_eq_of_scan_none θ target cands bs hscan] at h
      exact absurd h (by simp)
    | some m2 =>
      rw [findBestMatch_eq_of_scan_some θ target cands m2 bs hscan] at h
      by_cases hθ : θ ≤ m2.similarity
      · rw [if_pos hθ] at h
        obtain rfl : m2 = m := by simpa using h
        exact ⟨bs, rfl, hθ⟩
      · rw [if_neg hθ] at h
        exact absurd h (by simp)

/-- Concrete scan over one identical candidate: it is retained. -/
theorem scan_single_eval :
    scanCandidates defaultThreshold (some [0]) [candIdent] none 0 =
      .ok (some { stored := candIdent, similarity := 1, distance := 0 }, 1) := by
  rw [scanCandidates_cons_ok defaultThreshold (some [0]) candIdent [] none 0
    { distance := 0, similarity := 1, isMatch := true } cmp_ident]
  rw [if_pos (show (0:ℝ) < (1:ℝ) from by norm_num)]
  rfl

/-- Concrete `findBestMatch` over one identical candidate. -/
theorem find_single_eval :
    findBestMatch defaultThreshold (some [0]) [candIdent] =
      .ok (some { stored := candIdent, similarity := 1, distance := 0 }) := by
  rw [findBestMatch_eq_of_scan_some defaultThreshold (some [0]) [candIdent] _ _
    scan_single_eval]
  rw [if_pos (show defaultThreshold ≤ (1:ℝ) from by norm_num [defaultThreshold])]

/-- Concrete scan over two tied candidates: the second does not displace
the first because the comparison is strict. -/
theorem scan_tie_eval :
    scanCandidates defaultThreshold (some [0]) [candIdent, candTie] none 0 =
      .ok (some { stored := candIdent, similarity := 1, distance := 0 }, 1) := by
  rw [scanCandidates_cons_ok defaultThreshold (some [0]) candIdent [candTie] none 0
    { distance := 0, similarity := 1, isMatch := true } cmp_ident]
  rw [if_pos (show (0:ℝ) < (1:ℝ) from by norm_num)]
  rw [scanCandidates_cons_ok defaultThreshold (some [0]) candTie [] _ _
    { distance := 0, similarity := 1, isMatch := true } cmp_ident]
  rw [if_neg (show ¬((1:ℝ) < (1:ℝ)) from by norm_num)]
  rfl

/-- Concrete `findBestMatch` over two tied candidates. -/
theorem find_tie_eval :
    findBestMatch defaultThreshold (some [0]) [candIdent, candTie] =
      .ok (some { stored := candIdent, similarity := 1, distance := 0 }) := by
  rw [findBestMatch_eq_of_scan_some defaultThreshold (some [0]) [candIdent, candTie] _ _
    scan_tie_eval]
  rw [if_pos (show defaultThreshold ≤ (1:ℝ) from by norm_num [defaultThreshold])]

/-- Any candidate whose embedding is [0] reports similarity 1 against the
probe [0]. -/
theorem candSim_ident_val (c : StoredEmbedding) (hc : c.embedding = some [0]) :
    candSim defaultThreshold (some [0]) c = .ok 1 := by
  simp only [candSim, hc, cmp_ident]
  rfl

/-- C4: the claim fails on the code.  Two empty vectors are truthy in
JavaScript and have equal (zero) length, so `compareFaces` does not reject
them: it returns distance 0, similarity 1 and a positive match verdict. -/
theorem C4_counterexample :
    compareFaces defaultThreshold (some []) (some []) =
      .ok { distance := 0, similarity := 1, isMatch := true } := by
  rw [compareFaces_ok_len defaultThreshold [] [] rfl]
  rw [show sqSum [] [] = 0 from by simp [sqSum], Real.sqrt_zero]
  rw [show max (0:ℝ) (1 - 0) = 1 from by rw [sub_zero]; exact max_eq_right (by norm_num)]
  rw [decide_eq_true (show defaultThreshold ≤ (1:ℝ) from by norm_num [defaultThreshold])]

/-- C4 (amended): `compareFaces` fails with an invalid-input error — never
a match verdict — whenever either vector is missing or the two vectors
have unequal dimensionality; two empty vectors, having equal zero
dimensionality, are not rejected. -/
theorem C4_amended (θ : ℝ) (a b : Option (List ℝ))
    (h : a = none ∨ b = none ∨
      ∃ la lb, a = some la ∧ b = some lb ∧ la.length ≠ lb.length) :
    ∃ msg, compareFaces θ a b = .error msg := by
  rcases h with rfl | h2
  · rw [compareFaces_none_left]
    exact ⟨_, rfl⟩
  · rcases h2 with rfl | ⟨la, lb, rfl, rfl, hlen⟩
    · cases a with
      | none => rw [compareFaces_none_left]; exact ⟨_, rfl⟩
      | some e1 => rw [compareFaces_none_right]; exact ⟨_, rfl⟩
    · rw [compareFaces_mismatch θ la lb hlen]
      exact ⟨_, rfl⟩

/-- Witness for C4 (amended): a missing vector and a dimension mismatch
both produce errors. -/
theorem C4_witness :
    (∃ msg, compareFaces defaultThreshold none (some []) = .error msg) ∧
    (∃ msg, compareFaces defaultThreshold (some [0]) (some [1, 2]) = .error msg) :=
  ⟨C4_amended defaultThreshold none (some []) (Or.inl rfl),
    C4_amended defaultThreshold (some [0]) (some [1, 2])
      (Or.inr (Or.inr ⟨[0], [1, 2], rfl, rfl, by decide⟩))⟩

/-- C5: `findBestMatch` returns null on an empty candidate set, and any
candidate it does return passed the threshold guard, its reported
similarity being exactly what `compareFaces` computed against the probe. -/
theorem C5 (θ : ℝ) (target : Option (List ℝ)) (cands : List StoredEmbedding)
    (m : BestMatch) (h : findBestMatch θ target cands = .ok (some m)) :
    findBestMatch θ target [] = .ok none ∧ θ ≤ m.similarity ∧
      candSim θ target m.stored = .ok m.similarity := by
  obtain ⟨bs, hscan, hθ⟩ := findBestMatch_ok_some θ target cands m h
  refine ⟨rfl, hθ, ?_⟩
  rcases scanCandidates_ok_spec θ target cands none 0 _ hscan with ⟨hres, h2⟩ |
    ⟨pre, c, post, sim, dist, hsplit, hcs, hres, hgt, hpre, hpost⟩
  · exact absurd hres (by simp)
  · have hm : m = { stored := c, similarity := sim, distance := dist } := by
      have h3 := congrArg Prod.fst hres
      simpa using h3
    rw [hm]
    exact hcs

/-- Witness for C5 at a concrete above-threshold candidate set. -/
theorem C5_witness :
    findBestMatch defaultThreshold (some [0]) [candIdent] =
      .ok (some { stored := candIdent, similarity := 1, distance := 0 }) ∧
    (findBestMatch defaultThreshold (some [0]) [] = .ok none ∧
      defaultThreshold ≤ (1:ℝ) ∧
      candSim defaultThreshold (some [0]) candIdent = .ok 1) :=
  ⟨find_single_eval, C5 defaultThreshold (some [0]) [candIdent] _ find_single_eval⟩

/-- C7: a returned best match decomposes the candidate list as
`pre ++ best :: post` where every earlier candidate has strictly smaller
similarity and every later candidate has at most its similarity: the scan
retains the strictly greatest, so ties keep the first-seen candidate. -/
theorem C7 (θ : ℝ) (target : Option (List ℝ)) (cands : List StoredEmbedding)
    (m : BestMatch) (h : findBestMatch θ target cands = .ok (some m)) :
    ∃ pre post, cands = pre ++ m.stored :: post ∧
      candSim θ target m.stored = .ok m.similarity ∧
      (∀ c ∈ pre, ∀ s, candSim θ target c = .ok s → s < m.similarity) ∧
      (∀ c ∈ post, ∀ s, candSim θ target c = .ok s → s ≤ m.similarity) := by
  obtain ⟨bs, hscan, hθ⟩ := findBestMatch_ok_some θ target cands m h
  rcases scanCandidates_ok_spec θ target cands none 0 _ hscan with ⟨hres, h2⟩ |
    ⟨pre, c, post, sim, dist, hsplit, hcs, hres, hgt, hpre, hpost⟩
  · exact absurd hres (by simp)
  · have hm : m = { stored := c, similarity := sim, distance := dist } := by
      have h3 := congrArg Prod.fst hres
      simpa using h3
    subst hm
    exact ⟨pre, post, hsplit, hcs, hpre, hpost⟩

/-- Witness for C7 on a two-way tie: both candidates report similarity 1,
and the first-seen one is returned. -/
theorem C7_witness :
    candSim defaultThreshold (some [0]) candTie = .ok 1 ∧
    findBestMatch defaultThreshold (some [0]) [candIdent, candTie] =
      .ok (some { stored := candIdent, similarity := 1, distance := 0 }) ∧
    (∃ pre post, [candIdent, candTie] = pre ++ candIdent :: post ∧
      candSim defaultThreshold (some [0]) candIdent = .ok 1 ∧
      (∀ c ∈ pre, ∀ s, candSim defaultThreshold (some [0]) c = .ok s → s < 1) ∧
      (∀ c ∈ post, ∀ s, candSim defaultThreshold (some [0]) c = .ok s → s ≤ 1)) :=
  ⟨candSim_ident_val candTie rfl, find_tie_eval,
    C7 defaultThreshold (some [0]) [candIdent, candTie] _ find_tie_eval⟩

/-- C8: under the default threshold 0.6 the verdict of `compareFaces` is
exactly the inclusive comparison similarity ≥ 0.6. -/
theorem C8 (a b : Option (List ℝ)) (r : Comparison)
    (h : compareFaces defaultThreshold a b = .ok r) :
    defaultThreshold = 0.6 ∧ (r.isMatch = true ↔ (0.6:ℝ) ≤ r.similarity) := by
  refine ⟨rfl, ?_⟩
  exact compareFaces_isMatch defaultThreshold a b r h

/-- Witness for C8: a pair at similarity exactly 3/5 = 0.6 is a match
(inclusive boundary), a pair at similarity 1/2 is not. -/
theorem C8_witness :
    (compareFaces defaultThreshold (some [1]) (some [3 / 5]) =
        .ok { distance := 2 / 5, similarity := 3 / 5, isMatch := true }) ∧
    (({ distance := 2 / 5, similarity := 3 / 5, isMatch := true } : Comparison).isMatch = true ↔
      (0.6:ℝ) ≤ ({ distance := 2 / 5, similarity := 3 / 5, isMatch := true } : Comparison).similarity) ∧
    (compareFaces defaultThreshold (some [1]) (some [1 / 2]) =
        .ok { distance := 1 / 2, similarity := 1 / 2, isMatch := false }) ∧
    (({ distance := 1 / 2, similarity := 1 / 2, isMatch := false } : Comparison).isMatch = true ↔
      (0.6:ℝ) ≤ ({ distance := 1 / 2, similarity := 1 / 2, isMatch := false } : Comparison).similarity) :=
  ⟨cmp_boundary, (C8 _ _ _ cmp_boundary).2, cmp_below, (C8 _ _ _ cmp_below).2⟩

/-- C9: the claim fails on the code.  An image of average brightness
exactly 50 lies inside the claimed inclusive window [50,200], yet the
sub-check reports not-good because the code compares strictly. -/
theorem C9_counterexample :
    averageBrightness [(50, 50, 50)] = 50 ∧
    checkBrightnessIsGood [(50, 50, 50)] = false := by
  have h : averageBrightness [(50, 50, 50)] = 50 := by norm_num [averageBrightness]
  refine ⟨h, ?_⟩
  simp only [checkBrightnessIsGood, h]
  rw [decide_eq_false (show ¬((50:ℚ) < 50) from by norm_num)]
  simp

/-- C9 (amended): the brightness sub-check reports good exactly when the
average brightness lies strictly between 50 and 200 (both endpoints
excluded). -/
theorem C9_amended (pixels : List (ℚ × ℚ × ℚ)) :
    checkBrightnessIsGood pixels = true ↔
      50 < averageBrightness pixels ∧ averageBrightness pixels < 200 := by
  simp [checkBrightnessIsGood]

/-- A malformed candidate (missing embedding or wrong dimensionality)
makes its comparison against the probe throw. -/
theorem compareFaces_error_of_bad (θ : ℝ) (t : List ℝ) (c : StoredEmbedding)
    (hbad : c.embedding = none ∨ ∃ l, c.embedding = some l ∧ l.length ≠ t.length) :
    ∃ e, compareFaces θ (some t) c.embedding = .error e := by
  rcases hbad with hnone | ⟨l, hl, hlen⟩
  · rw [hnone, compareFaces_none_right]
    exact ⟨_, rfl⟩
  · rw [hl, compareFaces_mismatch θ t l (fun hEq => hlen hEq.symm)]
    exact ⟨_, rfl⟩

/-- The scan aborts with an error whenever any list member is malformed,
regardless of the accumulator it has built so far. -/
theorem scan_error_of_bad (θ : ℝ) (t : List ℝ) (c : StoredEmbedding)
    (hbad : c.embedding = none ∨ ∃ l, c.embedding = some l ∧ l.length ≠ t.length) :
    ∀ (cands : List StoredEmbedding), c ∈ cands →
      ∀ b0 s0, ∃ e, scanCandidates θ (some t) cands b0 s0 = .error e := by
  intro cands
  induction cands with
  | nil =>
    intro hc
    exact absurd hc (by simp)
  | cons c0 rest ih =>
    intro hc b0 s0
    rcases List.mem_cons.mp hc with rfl | hmem
    · obtain ⟨e, he⟩ := compareFaces_error_of_bad θ t _ hbad
      exact ⟨e, scanCandidates_cons_error θ (some t) _ rest b0 s0 e he⟩
    · cases hcmp : compareFaces θ (some t) c0.embedding with
      | error e => exact ⟨e, scanCandidates_cons_error θ (some t) c0 rest b0 s0 e hcmp⟩
      | ok comparison =>
        by_cases hlt : s0 < comparison.similarity
        · obtain ⟨e, he⟩ := ih hmem
            (some { stored := c0, similarity := comparison.similarity
                    distance := comparison.distance })
            comparison.similarity
          refine ⟨e, ?_⟩
          rw [scanCandidates_cons_ok θ (some t) c0 rest b0 s0 comparison hcmp, if_pos hlt]
          exact he
        · obtain ⟨e, he⟩ := ih hmem b0 s0
          refine ⟨e, ?_⟩
          rw [scanCandidates_cons_ok θ (some t) c0 rest b0 s0 comparison hcmp, if_neg hlt]
          exact he

/-- C10: if any candidate in the set has a missing embedding or one whose
dimensionality differs from the probe's, the whole `findBestMatch` call
fails with an error — malformed candidates are not skipped. -/
theorem C10 (θ : ℝ) (t : List ℝ) (cands : List StoredEmbedding)
    (c : StoredEmbedding) (hc : c ∈ cands)
    (hbad : c.embedding = none ∨ ∃ l, c.embedding = some l ∧ l.length ≠ t.length) :
    ∃ e, findBestMatch θ (some t) cands = .error e := by
  obtain ⟨e, he⟩ := scan_error_of_bad θ t c hbad cands hc none 0
  exact ⟨_, findBestMatch_eq_of_scan_error θ (some t) cands e he⟩

/-- Witness for C10: alone, the first candidate is an above-threshold
match; adding a wrong-dimensional candidate makes the whole call fail. -/
theorem C10_witness :
    findBestMatch defaultThreshold (some [0]) [candIdent] =
      .ok (some { stored := candIdent, similarity := 1, distance := 0 }) ∧
    ∃ e, findBestMatch defaultThreshold (some [0]) [candIdent, candBad] = .error e :=
  ⟨find_single_eval,
    C10 defaultThreshold [0] [candIdent, candBad] candBad
      (List.mem_cons_of_mem _ (List.mem_cons_self _ _))
      (Or.inr ⟨[1, 2], rfl, by decide⟩)⟩

end FacePay
